import Mathlib

/-!
Shallow embedding of the configuration-validation core of the `shakyo`
training tool (TypeScript).  The embedded code is the `TrainingState`
namespace: the schema registry `trainingStateSchema`, the per-field
validator `validateEntry`, and the aggregator `validateConfig`.

JavaScript numbers are modelled as rationals; the raw configuration blob
is an association list from string keys to dynamic values, where looking
up an absent key yields the JavaScript value `undefined`.  The
filesystem probe `existsSync` used by the `challengeFile` checker is
passed in as a function parameter (an existence probe), so the whole
development is pure and executable.
-/

namespace TrainingState

/-- Dynamic (JavaScript) values that can occur in the raw configuration
mapping: primitives plus `undefined`. -/
inductive Value where
  | num (q : ℚ)
  | str (s : String)
  | bool (b : Bool)
  | undefined
  deriving DecidableEq, Repr

/-- The closed set of primitive type tags used by the schema:
`number | string | boolean` in the source. -/
inductive PrimType where
  | number
  | string
  | boolean
  deriving DecidableEq, Repr

/-- The string form of a type tag, as it appears in `typeof` comparisons
and in generated error messages. -/
def PrimType.render : PrimType → String
  | .number => "number"
  | .string => "string"
  | .boolean => "boolean"

/-- JavaScript `typeof` on an embedded value. -/
def jsTypeof : Value → String
  | .num _ => "number"
  | .str _ => "string"
  | .bool _ => "boolean"
  | .undefined => "undefined"

/-- Rendering of a rational in error messages (stands in for JavaScript
number-to-string conversion). -/
def renderRat (q : ℚ) : String :=
  if q.den = 1 then toString q.num
  else toString q.num ++ "/" ++ toString q.den

/-- String conversion of a dynamic value, as performed by JavaScript
string concatenation and template literals in the error messages. -/
def Value.render : Value → String
  | .num q => renderRat q
  | .str s => s
  | .bool b => if b then "true" else "false"
  | .undefined => "undefined"

/-- Result of validating one field: `\x7b valid: T \x7d` or
`\x7b error: string \x7d` in the source. -/
inductive ValidatedEntry where
  | valid (v : Value)
  | error (e : String)
  deriving DecidableEq, Repr

/-- One field schema: declared type, requiredness, optional default,
semantic checker and description (interface `SchemaEntry` in the
source).  The checker is stored on dynamic values; `validateEntry` only
invokes it after the `typeof` gate has passed. -/
structure SchemaEntry where
  type : PrimType
  isRequired : Bool
  defaultValue : Option Value
  check : Value → ValidatedEntry
  description : String

/-- Schema entry for `winProbability`: required number, strictly between
0 and 1. -/
def winProbabilityEntry : SchemaEntry where
  type := .number
  isRequired := true
  defaultValue := some (.num (Rat.divInt 3 4))
  check := fun v =>
    match v with
    | .num n =>
        if 0 < n ∧ n < 1 then .valid (.num n)
        else .error ("The probability must be strictly between 0 and 1, but was "
          ++ Value.render (.num n))
    | v => .error ("The probability must be strictly between 0 and 1, but was "
        ++ v.render)
  description := "Probability of winning on each challenge that the program should aim for."

/-- Schema entry for `fragmentLength`: required number, at least 1,
floored on acceptance. -/
def fragmentLengthEntry : SchemaEntry where
  type := .number
  isRequired := true
  defaultValue := some (.num 40)
  check := fun v =>
    match v with
    | .num n =>
        if 1 ≤ n then .valid (.num (n.floor : ℚ))
        else .error ("The fragment length must be positive, but was "
          ++ Value.render (.num n))
    | v => .error ("The fragment length must be positive, but was " ++ v.render)
  description := "Maximum length of the text fragment in each round."

/-- Schema entry for `challengeIndex`: optional number (default 0),
non-negative, floored on acceptance. -/
def challengeIndexEntry : SchemaEntry where
  type := .number
  isRequired := false
  defaultValue := some (.num 0)
  check := fun v =>
    match v with
    | .num n =>
        if 0 ≤ n then .valid (.num (n.floor : ℚ))
        else .error ("The challenge index must be non-negative (0-based), but was "
          ++ Value.render (.num n))
    | v => .error ("The challenge index must be non-negative (0-based), but was "
        ++ v.render)
  description := "Index of the current challenge."

/-- Schema entry for `challengeFile`: required string, must pass the
injected existence probe. -/
def challengeFileEntry (existsSync : String → Bool) : SchemaEntry where
  type := .string
  isRequired := true
  defaultValue := none
  check := fun v =>
    match v with
    | .str relFilePath =>
        if existsSync relFilePath then .valid (.str relFilePath)
        else .error ("Couldn\x27t find the file \"" ++ relFilePath ++ "\".")
    | v => .error ("Couldn\x27t find the file \"" ++ v.render ++ "\".")
  description := "Path to the file containing the textual data."

/-- Schema entry for `maxAttempts`: optional number (default 3), at
least 1, floored on acceptance. -/
def maxAttemptsEntry : SchemaEntry where
  type := .number
  isRequired := false
  defaultValue := some (.num 3)
  check := fun v =>
    match v with
    | .num n =>
        if 1 ≤ n then .valid (.num (n.floor : ℚ))
        else .error ("Expected a positive integer number of attempts, but got "
          ++ Value.render (.num n) ++ ".")
    | v => .error ("Expected a positive integer number of attempts, but got "
        ++ v.render ++ ".")
  description := "Maximum number of attempts allowed on same fragment."

/-- The schema registry, in declaration order (`trainingStateSchema` in
the source); parametrised by the filesystem existence probe used by the
`challengeFile` checker. -/
def trainingStateSchema (existsSync : String → Bool) :
    List (String × SchemaEntry) :=
  [ ("winProbability", winProbabilityEntry),
    ("fragmentLength", fragmentLengthEntry),
    ("challengeIndex", challengeIndexEntry),
    ("challengeFile", challengeFileEntry existsSync),
    ("maxAttempts", maxAttemptsEntry) ]

/-- The raw, untyped configuration mapping (`LoadedConfig` in the
source): an association list of dynamic values. -/
def LoadedConfig := List (String × Value)

/-- JavaScript property access `loadedConfig[key]`: an absent key reads
as `undefined`. -/
def getEntry (cfg : LoadedConfig) (key : String) : Value :=
  match List.lookup key cfg with
  | some v => v
  | none => .undefined

/-- Per-field validation (`validateEntry` in the source): presence
resolution, `typeof` gate, then the semantic checker. -/
def validateEntry (key : String) (schemaEntry : SchemaEntry)
    (entryValue : Value) : ValidatedEntry :=
  if jsTypeof entryValue = "undefined" then
    if schemaEntry.isRequired then
      .error ("Missing required setting \x27" ++ key ++ "\x27 of type "
        ++ schemaEntry.type.render ++ " (" ++ schemaEntry.description ++ ")")
    else
      .valid (schemaEntry.defaultValue.getD .undefined)
  else
    if jsTypeof entryValue = schemaEntry.type.render then
      schemaEntry.check entryValue
    else
      .error ("Invalid type of " ++ key ++ ", expected a "
        ++ schemaEntry.type.render ++ ", but got: " ++ entryValue.render)

/-- The overall result (`ValidatedTrainingState` in the source): either
a validated configuration object (an association list over the declared
keys) or the list of collected error strings. -/
inductive ValidatedTrainingState where
  | valid (state : List (String × Value))
  | errors (errs : List String)
  deriving DecidableEq, Repr

/-- The loop body of `validateConfig`: walk the schema registry in
order, collecting error strings and accepted key/value pairs. -/
def collectEntries (schema : List (String × SchemaEntry))
    (loadedConfig : LoadedConfig) : List String × List (String × Value) :=
  match schema with
  | [] => ([], [])
  | (key, entry) :: rest =>
      let tail := collectEntries rest loadedConfig
      match validateEntry key entry (getEntry loadedConfig key) with
      | .error e => (e :: tail.1, tail.2)
      | .valid v => (tail.1, (key, v) :: tail.2)

/-- Whole-configuration validation (`validateConfig` in the source):
iterate the schema registry, then return the error list if any field
failed, otherwise the assembled configuration object. -/
def validateConfig (existsSync : String → Bool)
    (loadedConfig : LoadedConfig) : ValidatedTrainingState :=
  let acc := collectEntries (trainingStateSchema existsSync) loadedConfig
  if acc.1.length > 0 then .errors acc.1 else .valid acc.2

end TrainingState

namespace TrainingState

/-! ### Helper definitions and lemmas about the aggregation loop -/

/-- The outcome `validateConfig` computes for one schema entry on a
given raw mapping. -/
def entryOutcome (cfg : LoadedConfig) (kv : String × SchemaEntry) :
    ValidatedEntry :=
  validateEntry kv.1 kv.2 (getEntry cfg kv.1)

/-- The error string (if any) one schema entry contributes. -/
def entryError (cfg : LoadedConfig) (kv : String × SchemaEntry) :
    Option String :=
  match entryOutcome cfg kv with
  | .error e => some e
  | .valid _ => none

/-- The accepted key/value pair (if any) one schema entry contributes. -/
def entryResult (cfg : LoadedConfig) (kv : String × SchemaEntry) :
    Option (String × Value) :=
  match entryOutcome cfg kv with
  | .valid v => some (kv.1, v)
  | .error _ => none

/-- A sentinel semantic checker: if the validator ever invoked it, the
result would be this recognisable error, so proving that results are
unchanged under swapping it in shows the real checker was not invoked. -/
def sentinelCheck : Value → ValidatedEntry :=
  fun _ => .error "checker invoked"

theorem collectEntries_fst (schema : List (String × SchemaEntry))
    (cfg : LoadedConfig) :
    (collectEntries schema cfg).1 = schema.filterMap (entryError cfg) := by
  induction schema with
  | nil => rfl
  | cons kv rest ih =>
      obtain ⟨key, entry⟩ := kv
      simp only [collectEntries, List.filterMap_cons, entryError, entryOutcome]
      cases validateEntry key entry (getEntry cfg key) <;> simp [ih]

theorem collectEntries_snd (schema : List (String × SchemaEntry))
    (cfg : LoadedConfig) :
    (collectEntries schema cfg).2 = schema.filterMap (entryResult cfg) := by
  induction schema with
  | nil => rfl
  | cons kv rest ih =>
      obtain ⟨key, entry⟩ := kv
      simp only [collectEntries, List.filterMap_cons, entryResult, entryOutcome]
      cases validateEntry key entry (getEntry cfg key) <;> simp [ih]

theorem collectEntries_keys_of_no_errors
    (schema : List (String × SchemaEntry)) (cfg : LoadedConfig)
    (h : (collectEntries schema cfg).1 = []) :
    (collectEntries schema cfg).2.map Prod.fst = schema.map Prod.fst := by
  induction schema with
  | nil => rfl
  | cons kv rest ih =>
      obtain ⟨key, entry⟩ := kv
      simp only [collectEntries] at h ⊢
      cases hv : validateEntry key entry (getEntry cfg key) with
      | error e => simp [hv] at h
      | valid v =>
          simp only [hv] at h ⊢
          simp [ih h]

theorem collectEntries_congr (schema : List (String × SchemaEntry))
    (cfg1 cfg2 : LoadedConfig)
    (h : ∀ key ∈ schema.map Prod.fst, getEntry cfg1 key = getEntry cfg2 key) :
    collectEntries schema cfg1 = collectEntries schema cfg2 := by
  induction schema with
  | nil => rfl
  | cons kv rest ih =>
      obtain ⟨key, entry⟩ := kv
      have hk : getEntry cfg1 key = getEntry cfg2 key := h key (by simp)
      have hrest := ih (fun k hmem => h k (by simp [hmem]))
      simp only [collectEntries, hk, hrest]

end TrainingState

namespace TrainingState

theorem length_filterMap_eq_length_filter {α β : Type} (f : α → Option β)
    (l : List α) :
    (l.filterMap f).length = (l.filter (fun a => (f a).isSome)).length := by
  induction l with
  | nil => rfl
  | cons a rest ih =>
      cases h : f a <;> simp [List.filterMap_cons, List.filter_cons, h, ih]

/-- C1: for every raw mapping, `validateConfig` evaluates every declared
field independently with no short-circuiting: the collected error list
is exactly the in-order list of per-field errors over the schema
registry in declaration order, its length is the number of invalid
declared fields, and whenever it is non-empty the overall result is
exactly that list of error strings. -/
theorem validateConfig_no_short_circuit (es : String → Bool)
    (cfg : LoadedConfig) :
    (collectEntries (trainingStateSchema es) cfg).1
      = (trainingStateSchema es).filterMap (entryError cfg)
    ∧ (collectEntries (trainingStateSchema es) cfg).1.length
      = ((trainingStateSchema es).filter
          (fun kv => (entryError cfg kv).isSome)).length
    ∧ ((trainingStateSchema es).filterMap (entryError cfg) ≠ [] →
        validateConfig es cfg
          = .errors ((trainingStateSchema es).filterMap (entryError cfg)))
    := by
  refine ⟨collectEntries_fst _ _, ?_, ?_⟩
  · rw [collectEntries_fst]
    exact length_filterMap_eq_length_filter _ _
  · intro hne
    simp only [validateConfig, collectEntries_fst]
    have : 0 < ((trainingStateSchema es).filterMap (entryError cfg)).length :=
      List.length_pos.mpr hne
    simp [this]

/-- C1 witness: supplying an empty raw mapping to a schema whose probe
rejects everything leaves three independently invalid required fields,
and the result is exactly those three error strings in declaration
order. -/
theorem validateConfig_no_short_circuit_witness :
    validateConfig (fun _ => false) []
      = .errors
          [ "Missing required setting \x27winProbability\x27 of type number (Probability of winning on each challenge that the program should aim for.)",
            "Missing required setting \x27fragmentLength\x27 of type number (Maximum length of the text fragment in each round.)",
            "Missing required setting \x27challengeFile\x27 of type string (Path to the file containing the textual data.)" ] :=
  (((validateConfig_no_short_circuit (fun _ => false) []).2.2
    (by decide))).trans (by decide)

/-- C2: for every raw mapping the result is exactly one of two shapes:
either a configuration object whose key list is exactly the five
declared keys in declaration order (and then no field produced an
error), or the non-empty ordered list of collected error strings (and
then no configuration object, not even a partial one, is produced). -/
theorem validateConfig_result_shapes (es : String → Bool)
    (cfg : LoadedConfig) :
    (validateConfig es cfg
        = .valid ((collectEntries (trainingStateSchema es) cfg).2)
      ∧ ((collectEntries (trainingStateSchema es) cfg).2).map Prod.fst
          = ["winProbability", "fragmentLength", "challengeIndex",
             "challengeFile", "maxAttempts"]
      ∧ (collectEntries (trainingStateSchema es) cfg).1 = [])
    ∨ (validateConfig es cfg
        = .errors ((collectEntries (trainingStateSchema es) cfg).1)
      ∧ (collectEntries (trainingStateSchema es) cfg).1 ≠ []) := by
  by_cases h : (collectEntries (trainingStateSchema es) cfg).1 = []
  · left
    refine ⟨?_, ?_, h⟩
    · simp [validateConfig, h]
    · exact collectEntries_keys_of_no_errors _ _ h
  · right
    have : 0 < (collectEntries (trainingStateSchema es) cfg).1.length :=
      List.length_pos.mpr h
    exact ⟨by simp [validateConfig, this], h⟩

/-- C8: `validateConfig` is a total function that never raises: on every
raw mapping it returns an ordinary result value, either the collected
error list or the assembled configuration object. -/
theorem validateConfig_total_result (es : String → Bool)
    (cfg : LoadedConfig) :
    validateConfig es cfg
        = .errors ((collectEntries (trainingStateSchema es) cfg).1)
    ∨ validateConfig es cfg
        = .valid ((collectEntries (trainingStateSchema es) cfg).2) := by
  by_cases h : 0 < (collectEntries (trainingStateSchema es) cfg).1.length
  · left
    simp [validateConfig, h]
  · right
    simp [validateConfig, h]

end TrainingState

namespace TrainingState

/-- The missing-required-field message template as the spec words it:
`Missing required setting \x27<key>\x27 of type <type> (<description>)`. -/
def specMissingMessage (key : String) (e : SchemaEntry) : String :=
  "Missing required setting \x27" ++ key ++ "\x27 of type "
    ++ e.type.render ++ " (" ++ e.description ++ ")"

/-- The type-mismatch message template as the spec words it:
`Invalid type of <key>, expected a <type>, but got: <value>`. -/
def specInvalidTypeMessage (key : String) (e : SchemaEntry) (v : Value) :
    String :=
  "Invalid type of " ++ key ++ ", expected a " ++ e.type.render
    ++ ", but got: " ++ v.render

theorem error_mem_collect (es : String → Bool) (cfg : LoadedConfig)
    (key : String) (e : SchemaEntry) (m : String)
    (hmem : (key, e) ∈ trainingStateSchema es)
    (h : validateEntry key e (getEntry cfg key) = .error m) :
    m ∈ (collectEntries (trainingStateSchema es) cfg).1 := by
  rw [collectEntries_fst]
  exact List.mem_filterMap.mpr
    ⟨(key, e), hmem, by simp [entryError, entryOutcome, h]⟩

/-- C3 counterexample: the registry entry for `winProbability` is
required yet carries `defaultValue` 0.75, so it is false that every
field schema with `isRequired = true` carries no `defaultValue`. -/
theorem required_field_with_default_cex :
    ("winProbability", winProbabilityEntry)
        ∈ trainingStateSchema (fun _ => true)
      ∧ winProbabilityEntry.isRequired = true
      ∧ winProbabilityEntry.defaultValue = some (Value.num (Rat.divInt 3 4)) :=
  ⟨List.mem_cons_self _ _, rfl, rfl⟩

/-- C3 amended: every field schema with `isRequired = false` carries a
`defaultValue` of the declared type; required fields are allowed to
carry one as well, and in this registry `winProbability` and
`fragmentLength` (both required) do carry number defaults while
`challengeFile` carries none. -/
theorem schema_optional_default_invariant (es : String → Bool) :
    (∀ kv ∈ trainingStateSchema es, kv.2.isRequired = false →
      Option.map jsTypeof kv.2.defaultValue = some kv.2.type.render)
    ∧ winProbabilityEntry.isRequired = true
    ∧ Option.map jsTypeof winProbabilityEntry.defaultValue
        = some winProbabilityEntry.type.render
    ∧ fragmentLengthEntry.isRequired = true
    ∧ Option.map jsTypeof fragmentLengthEntry.defaultValue
        = some fragmentLengthEntry.type.render
    ∧ (challengeFileEntry es).isRequired = true
    ∧ (challengeFileEntry es).defaultValue = none := by
  refine ⟨?_, rfl, rfl, rfl, rfl, rfl, rfl⟩
  intro kv hmem hopt
  simp only [trainingStateSchema, List.mem_cons, List.not_mem_nil,
    or_false] at hmem
  rcases hmem with h | h | h | h | h <;> subst h <;>
    first
      | rfl
      | exact absurd hopt (by
          simp [winProbabilityEntry, fragmentLengthEntry, challengeFileEntry])

/-- C3 amended witness: `challengeIndex` is not required and its default
value 0 has the declared runtime type `number`. -/
theorem schema_optional_default_invariant_witness :
    Option.map jsTypeof challengeIndexEntry.defaultValue
      = some challengeIndexEntry.type.render :=
  (schema_optional_default_invariant (fun _ => true)).1
    ("challengeIndex", challengeIndexEntry)
    (List.mem_cons_of_mem _ (List.mem_cons_of_mem _ (List.mem_cons_self _ _)))
    rfl

/-- C4: for every declared key absent from the raw mapping, if the field
is required then `validateEntry` produces exactly the documented
missing-required-setting message, produces it even when the semantic
checker is replaced by a sentinel (so the checker is not invoked), and
that message appears among the collected errors of `validateConfig`. -/
theorem missing_required_setting (es : String → Bool) (cfg : LoadedConfig)
    (key : String) (e : SchemaEntry)
    (hmem : (key, e) ∈ trainingStateSchema es)
    (habs : getEntry cfg key = .undefined)
    (hreq : e.isRequired = true) :
    validateEntry key e (getEntry cfg key)
        = .error (specMissingMessage key e)
    ∧ validateEntry key { e with check := sentinelCheck } (getEntry cfg key)
        = .error (specMissingMessage key e)
    ∧ specMissingMessage key e
        ∈ (collectEntries (trainingStateSchema es) cfg).1 := by
  have h1 : validateEntry key e (getEntry cfg key)
      = .error (specMissingMessage key e) := by
    simp [validateEntry, habs, jsTypeof, hreq, specMissingMessage]
  refine ⟨h1, ?_, error_mem_collect es cfg key e _ hmem h1⟩
  simp [validateEntry, habs, jsTypeof, hreq, specMissingMessage]

/-- C4 witness: on the empty raw mapping the required key
`winProbability` yields exactly its missing-required-setting message,
with and without the sentinel checker, and the message is collected. -/
theorem missing_required_setting_witness :
    validateEntry "winProbability" winProbabilityEntry
        (getEntry [] "winProbability")
        = .error (specMissingMessage "winProbability" winProbabilityEntry)
    ∧ validateEntry "winProbability"
        { winProbabilityEntry with check := sentinelCheck }
        (getEntry [] "winProbability")
        = .error (specMissingMessage "winProbability" winProbabilityEntry)
    ∧ specMissingMessage "winProbability" winProbabilityEntry
        ∈ (collectEntries (trainingStateSchema (fun _ => true)) []).1 :=
  missing_required_setting (fun _ => true) [] "winProbability"
    winProbabilityEntry (List.mem_cons_self _ _) rfl rfl

end TrainingState

namespace TrainingState

/-- C5: for every declared non-required key absent from the raw mapping,
`validateEntry` resolves the field to its schema `defaultValue`
verbatim, also when the semantic checker is replaced by a sentinel (so
the checker is not invoked); concretely, an otherwise-valid mapping
omitting `challengeIndex` and `maxAttempts` validates to a configuration
with `challengeIndex = 0` and `maxAttempts = 3`. -/
theorem optional_field_default_resolution (es : String → Bool)
    (cfg : LoadedConfig) (key : String) (e : SchemaEntry)
    (hmem : (key, e) ∈ trainingStateSchema es)
    (habs : getEntry cfg key = .undefined)
    (hopt : e.isRequired = false) :
    validateEntry key e (getEntry cfg key)
        = .valid (e.defaultValue.getD .undefined)
    ∧ validateEntry key { e with check := sentinelCheck } (getEntry cfg key)
        = .valid (e.defaultValue.getD .undefined)
    ∧ validateConfig (fun _ => true)
        [ ("winProbability", .num (Rat.divInt 1 2)),
          ("fragmentLength", .num 80),
          ("challengeFile", .str "challenges.txt") ]
      = .valid
          [ ("winProbability", .num (Rat.divInt 1 2)),
            ("fragmentLength", .num 80),
            ("challengeIndex", .num 0),
            ("challengeFile", .str "challenges.txt"),
            ("maxAttempts", .num 3) ] := by
  refine ⟨?_, ?_, by decide⟩
  · simp [validateEntry, habs, jsTypeof, hopt]
  · simp [validateEntry, habs, jsTypeof, hopt]

/-- C5 witness: on the empty raw mapping the non-required key
`challengeIndex` resolves to its default value 0 without invoking the
checker, and the concrete three-field scenario validates with the
defaults filled in. -/
theorem optional_field_default_resolution_witness :
    validateEntry "challengeIndex" challengeIndexEntry
        (getEntry [] "challengeIndex")
        = .valid (challengeIndexEntry.defaultValue.getD .undefined)
    ∧ validateEntry "challengeIndex"
        { challengeIndexEntry with check := sentinelCheck }
        (getEntry [] "challengeIndex")
        = .valid (challengeIndexEntry.defaultValue.getD .undefined)
    ∧ validateConfig (fun _ => true)
        [ ("winProbability", .num (Rat.divInt 1 2)),
          ("fragmentLength", .num 80),
          ("challengeFile", .str "challenges.txt") ]
      = .valid
          [ ("winProbability", .num (Rat.divInt 1 2)),
            ("fragmentLength", .num 80),
            ("challengeIndex", .num 0),
            ("challengeFile", .str "challenges.txt"),
            ("maxAttempts", .num 3) ] :=
  optional_field_default_resolution (fun _ => true) [] "challengeIndex"
    challengeIndexEntry
    (List.mem_cons_of_mem _ (List.mem_cons_of_mem _ (List.mem_cons_self _ _)))
    rfl rfl

/-- C6: for every declared key present in the raw mapping with a value
whose runtime type differs from the declared type, `validateEntry`
produces exactly the documented invalid-type message, produces it even
when the semantic checker is replaced by a sentinel (so the checker is
not invoked), and that message appears among the collected errors of
`validateConfig`. -/
theorem invalid_type_field (es : String → Bool) (cfg : LoadedConfig)
    (key : String) (e : SchemaEntry)
    (hmem : (key, e) ∈ trainingStateSchema es)
    (hpres : jsTypeof (getEntry cfg key) ≠ "undefined")
    (hmis : jsTypeof (getEntry cfg key) ≠ e.type.render) :
    validateEntry key e (getEntry cfg key)
        = .error (specInvalidTypeMessage key e (getEntry cfg key))
    ∧ validateEntry key { e with check := sentinelCheck } (getEntry cfg key)
        = .error (specInvalidTypeMessage key e (getEntry cfg key))
    ∧ specInvalidTypeMessage key e (getEntry cfg key)
        ∈ (collectEntries (trainingStateSchema es) cfg).1 := by
  have h1 : validateEntry key e (getEntry cfg key)
      = .error (specInvalidTypeMessage key e (getEntry cfg key)) := by
    simp [validateEntry, hpres, hmis, specInvalidTypeMessage]
  refine ⟨h1, ?_, error_mem_collect es cfg key e _ hmem h1⟩
  simp [validateEntry, hpres, hmis, specInvalidTypeMessage]

/-- C6 witness: supplying the string "half" for the number-typed key
`winProbability` yields exactly the documented invalid-type message,
with and without the sentinel checker, and the message is collected. -/
theorem invalid_type_field_witness :
    validateEntry "winProbability" winProbabilityEntry
        (getEntry [("winProbability", .str "half")] "winProbability")
        = .error (specInvalidTypeMessage "winProbability" winProbabilityEntry
            (getEntry [("winProbability", .str "half")] "winProbability"))
    ∧ validateEntry "winProbability"
        { winProbabilityEntry with check := sentinelCheck }
        (getEntry [("winProbability", .str "half")] "winProbability")
        = .error (specInvalidTypeMessage "winProbability" winProbabilityEntry
            (getEntry [("winProbability", .str "half")] "winProbability"))
    ∧ specInvalidTypeMessage "winProbability" winProbabilityEntry
        (getEntry [("winProbability", .str "half")] "winProbability")
        ∈ (collectEntries (trainingStateSchema (fun _ => true))
            [("winProbability", .str "half")]).1 :=
  invalid_type_field (fun _ => true) [("winProbability", .str "half")]
    "winProbability" winProbabilityEntry (List.mem_cons_self _ _)
    (by decide) (by decide)

/-- C7: the `fragmentLength` semantic check accepts every number at
least 1 and normalizes it to its integer floor, and rejects every number
below 1 with the documented semantic error. -/
theorem fragmentLength_check_floor (n : ℚ) :
    (1 ≤ n → fragmentLengthEntry.check (.num n)
        = .valid (.num (n.floor : ℚ)))
    ∧ (n < 1 → fragmentLengthEntry.check (.num n)
        = .error ("The fragment length must be positive, but was "
            ++ Value.render (.num n))) := by
  constructor
  · intro h
    simp [fragmentLengthEntry, h]
  · intro h
    simp [fragmentLengthEntry, not_le.mpr h]

/-- C7 witness: input 2.9 is accepted as 2 (its floor) and input 0 is
rejected with the documented semantic error. -/
theorem fragmentLength_check_floor_witness :
    fragmentLengthEntry.check (.num (Rat.divInt 29 10)) = .valid (.num 2)
    ∧ fragmentLengthEntry.check (.num 0)
        = .error "The fragment length must be positive, but was 0" :=
  ⟨((fragmentLength_check_floor (Rat.divInt 29 10)).1 (by decide)).trans
      (by decide),
    ((fragmentLength_check_floor 0).2 (by decide)).trans (by decide)⟩

end TrainingState

namespace TrainingState

theorem getEntry_cons_undef (key : String) (cfg : List (String × Value))
    (hlook : List.lookup key cfg = none) (k : String) :
    getEntry ((key, Value.undefined) :: cfg) k = getEntry cfg k := by
  by_cases hk : k = key
  · subst hk
    simp [getEntry, List.lookup, hlook]
  · have hbeq : (k == key) = false := beq_eq_false_iff_ne.mpr hk
    simp [getEntry, List.lookup, hbeq]

/-- C9: raw-mapping keys not declared in the schema registry have no
effect: two raw mappings that agree on the five declared keys (under the
same existence probe) validate to identical results. -/
theorem undeclared_keys_no_effect (es : String → Bool)
    (cfg1 cfg2 : LoadedConfig)
    (h : ∀ key ∈ (trainingStateSchema es).map Prod.fst,
        getEntry cfg1 key = getEntry cfg2 key) :
    validateConfig es cfg1 = validateConfig es cfg2 := by
  have hc := collectEntries_congr (trainingStateSchema es) cfg1 cfg2 h
  simp [validateConfig, hc]

/-- C9 witness: adding two undeclared keys to a raw mapping leaves the
validation result unchanged. -/
theorem undeclared_keys_no_effect_witness :
    validateConfig (fun _ => true) [("winProbability", .num 1)]
      = validateConfig (fun _ => true)
          [ ("winProbability", .num 1),
            ("extraneous", .str "ignored"),
            ("anotherExtra", .bool true) ] :=
  undeclared_keys_no_effect (fun _ => true) _ _ (by decide)

/-- C10: a raw mapping in which a declared key is present with value
`undefined` is validated identically to the mapping with that key
absent; in both mappings a required field yields the documented
missing-required-setting error, a non-required field resolves to its
`defaultValue`, and the semantic checker is not invoked (replacing it by
a sentinel changes nothing). -/
theorem present_undef_equals_absent (es : String → Bool) (key : String)
    (e : SchemaEntry) (cfg : LoadedConfig)
    (hmem : (key, e) ∈ trainingStateSchema es)
    (hlook : List.lookup key cfg = none) :
    validateConfig es ((key, Value.undefined) :: cfg) = validateConfig es cfg
    ∧ validateEntry key e (getEntry ((key, Value.undefined) :: cfg) key)
        = validateEntry key e (getEntry cfg key)
    ∧ (e.isRequired = true →
        validateEntry key e (getEntry ((key, Value.undefined) :: cfg) key)
          = .error (specMissingMessage key e))
    ∧ (e.isRequired = false →
        validateEntry key e (getEntry ((key, Value.undefined) :: cfg) key)
          = .valid (e.defaultValue.getD .undefined))
    ∧ validateEntry key { e with check := sentinelCheck }
        (getEntry ((key, Value.undefined) :: cfg) key)
        = validateEntry key e (getEntry ((key, Value.undefined) :: cfg) key)
    := by
  have hget : getEntry ((key, Value.undefined) :: cfg) key = .undefined := by
    simp [getEntry, List.lookup]
  have hget2 : getEntry cfg key = .undefined := by
    simp [getEntry, hlook]
  refine ⟨?_, ?_, ?_, ?_, ?_⟩
  · exact undeclared_keys_no_effect es _ _
      (fun k _ => getEntry_cons_undef key cfg hlook k)
  · rw [hget, hget2]
  · intro hreq
    simp [validateEntry, hget, jsTypeof, hreq, specMissingMessage]
  · intro hopt
    simp [validateEntry, hget, jsTypeof, hopt]
  · cases hreq : e.isRequired <;>
      simp [validateEntry, hget, jsTypeof, hreq]

/-- C10 witness: supplying `winProbability` explicitly as `undefined` on
the empty mapping validates identically to omitting it, yields the
documented missing-required-setting error, and leaves the sentinel
checker uninvoked. -/
theorem present_undef_equals_absent_witness :
    validateConfig (fun _ => true) [("winProbability", Value.undefined)]
        = validateConfig (fun _ => true) []
    ∧ validateEntry "winProbability" winProbabilityEntry
        (getEntry [("winProbability", Value.undefined)] "winProbability")
        = validateEntry "winProbability" winProbabilityEntry
            (getEntry [] "winProbability")
    ∧ (winProbabilityEntry.isRequired = true →
        validateEntry "winProbability" winProbabilityEntry
            (getEntry [("winProbability", Value.undefined)] "winProbability")
          = .error (specMissingMessage "winProbability" winProbabilityEntry))
    ∧ (winProbabilityEntry.isRequired = false →
        validateEntry "winProbability" winProbabilityEntry
            (getEntry [("winProbability", Value.undefined)] "winProbability")
          = .valid (winProbabilityEntry.defaultValue.getD .undefined))
    ∧ validateEntry "winProbability"
        { winProbabilityEntry with check := sentinelCheck }
        (getEntry [("winProbability", Value.undefined)] "winProbability")
        = validateEntry "winProbability" winProbabilityEntry
            (getEntry [("winProbability", Value.undefined)] "winProbability") :=
  present_undef_equals_absent (fun _ => true) "winProbability"
    winProbabilityEntry [] (List.mem_cons_self _ _) rfl

end TrainingState
